import Mathlib

/-!
Verification of the notfellchen repository's photo resolution, geocoding and
moderation logic, shallowly embedded from
`src/fellchensammlung/models.py` and `src/fellchensammlung/tools/geo.py`.
Python's implicit fall-through `return None` is modelled with `Option`;
Python exceptions escaping a function are modelled with `Except PyError`.
-/

/-! ## Data model: images, animals, adoption notices (models.py) -/

/-- Embeds the `Image` model (models.py 38-48). Only the fields the
photo-resolution logic can observe are kept. -/
structure Image where
  title : String
  alt_text : String
  deriving Repr, DecidableEq

/-- Embeds the `Animal` model (models.py 175-223): its many-to-many `photos`
relation is a list in attachment order. Fields irrelevant to photo
resolution (species, sex, date of birth) are omitted. -/
structure Animal where
  name : String
  photos : List Image
  deriving Repr, DecidableEq

/-- Embeds the `AdoptionNotice` model (models.py 107-172): directly attached
`photos` (many-to-many, in attachment order) and the `animals` reverse
relation (models.py 128-130), in iteration order. -/
structure AdoptionNotice where
  name : String
  photos : List Image
  animals : List Animal
  deriving Repr, DecidableEq

/-- Embeds the loop of `AdoptionNotice.get_photos` / `get_photo`
(models.py 152-154 and 168-170): `photos = []` then
`for animal in self.animals: photos.extend(animal.photos.all())`,
i.e. the concatenation of the animals' photo lists in animal order. -/
def collectAnimalPhotos : List Animal → List Image
  | [] => []
  | a :: rest => a.photos ++ collectAnimalPhotos rest

/-- Embeds `AdoptionNotice.get_photos` (models.py 143-156). If neither the
notice nor its animals have photos the Python function falls through
without a `return`, yielding `None`: that case is `none` here, while a
returned list is `some`. -/
def AdoptionNotice.get_photos (n : AdoptionNotice) : Option (List Image) :=
  let group_photos := n.photos
  if group_photos.length > 0 then
    some group_photos
  else
    let photos := collectAnimalPhotos n.animals
    if photos.length > 0 then some photos else none

/-- Embeds `AdoptionNotice.get_photo` (models.py 158-172). The guarded
`group_photos[0]` / `photos[0]` is `head?` under a non-emptiness test;
the implicit fall-through is `none`. -/
def AdoptionNotice.get_photo (n : AdoptionNotice) : Option Image :=
  let group_photos := n.photos
  if group_photos.length > 0 then
    group_photos.head?
  else
    let photos := collectAnimalPhotos n.animals
    if photos.length > 0 then photos.head? else none

/-- A notice with no directly attached photos whose only animal also has no
photos (used to exercise the fall-through branch of `get_photos`). -/
def noticeNoPhotosWithAnimal : AdoptionNotice :=
  { name := "Bella", photos := [], animals := [{ name := "Mia", photos := [] }] }

/-- A notice with no photos anywhere and no animals at all. -/
def noticeBare : AdoptionNotice :=
  { name := "Rex", photos := [], animals := [] }

/-! ## Theorems: photo resolution (C1, C2, C3) -/

/-- C1 counterexample: the claim says that a notice without directly attached
photos gets back the concatenation of its animals' photo sequences; but when
that concatenation is empty, `get_photos` falls through and returns `None`
rather than the (empty) concatenation. -/
theorem C1_counterexample :
    noticeNoPhotosWithAnimal.get_photos = none ∧
    noticeNoPhotosWithAnimal.get_photos ≠
      some (collectAnimalPhotos noticeNoPhotosWithAnimal.animals) := by
  constructor
  · rfl
  · intro h
    simp [noticeNoPhotosWithAnimal, AdoptionNotice.get_photos,
      collectAnimalPhotos] at h

/-- C1 amended: if the notice has directly attached photos, `get_photos`
returns exactly those in attachment order, regardless of animal photos;
otherwise when the concatenation of the animals' photo sequences (in animal
order) is non-empty it returns that concatenation; and when that
concatenation is empty, it returns `none` instead of an empty sequence. -/
theorem C1_amended (n : AdoptionNotice) :
    (n.photos ≠ [] → n.get_photos = some n.photos) ∧
    (n.photos = [] → collectAnimalPhotos n.animals ≠ [] →
      n.get_photos = some (collectAnimalPhotos n.animals)) ∧
    (n.photos = [] → collectAnimalPhotos n.animals = [] →
      n.get_photos = none) := by
  refine ⟨fun h => ?_, fun h h2 => ?_, fun h h2 => ?_⟩
  · simp [AdoptionNotice.get_photos, List.length_pos, h]
  · simp [AdoptionNotice.get_photos, h, List.length_pos, h2]
  · simp [AdoptionNotice.get_photos, h, h2]

/-- Witness for C1_amended at a concrete notice with one attached photo. -/
theorem C1_amended_witness :
    (AdoptionNotice.mk "Max" [⟨"p1", "a cat"⟩] []).get_photos =
      some [⟨"p1", "a cat"⟩] :=
  (C1_amended (AdoptionNotice.mk "Max" [⟨"p1", "a cat"⟩] [])).1 (by decide)

/-- C2 counterexample: for a notice with no photos anywhere the claim says
`get_photos` returns an empty sequence; the code instead falls through and
returns `None` (no sequence at all). -/
theorem C2_counterexample :
    noticeBare.get_photos = none ∧
    noticeBare.get_photos ≠ some ([] : List Image) := by
  exact ⟨rfl, by simp [noticeBare, AdoptionNotice.get_photos, collectAnimalPhotos]⟩

/-- C2 amended: for every notice with no directly attached photos and no
animal photos, `get_photos` returns `none` (not an empty sequence — the
Python function falls through without a return) and `get_photo` returns
`none`; both functions are total, so photo resolution never raises. -/
theorem C2_amended (n : AdoptionNotice) (h1 : n.photos = [])
    (h2 : ∀ a ∈ n.animals, a.photos = []) :
    n.get_photos = none ∧ n.get_photo = none := by
  have hcol : ∀ l : List Animal, (∀ a ∈ l, a.photos = []) →
      collectAnimalPhotos l = [] := by
    intro l
    induction l with
    | nil => intro _; rfl
    | cons a rest ih =>
      intro hl
      have ha := hl a (by simp)
      simp only [collectAnimalPhotos, ha, List.nil_append]
      exact ih (fun b hb => hl b (by simp [hb]))
  have hcol' := hcol n.animals h2
  constructor
  · simp [AdoptionNotice.get_photos, h1, hcol']
  · simp [AdoptionNotice.get_photo, h1, hcol']

/-- Witness for C2_amended at a concrete photo-less notice. -/
theorem C2_amended_witness :
    noticeNoPhotosWithAnimal.get_photos = none ∧
    noticeNoPhotosWithAnimal.get_photo = none :=
  C2_amended noticeNoPhotosWithAnimal (by decide) (by decide)

/-- C3: `get_photo` agrees with `get_photos` on precedence — it is the first
element of the resolved sequence when `get_photos` returns one (such a
sequence is never empty), and `none` when `get_photos` returns `none`. -/
theorem C3_get_photo_head (n : AdoptionNotice) :
    n.get_photo = n.get_photos.bind List.head? := by
  unfold AdoptionNotice.get_photo AdoptionNotice.get_photos
  by_cases h : n.photos.length > 0
  · simp [h]
  · by_cases h2 : (collectAnimalPhotos n.animals).length > 0
    · simp [h, h2]
    · simp [h, h2]

/-! ## Geocoding (tools/geo.py and models.py Location) -/

/-- Python exceptions that can escape the geocoding entry points. -/
inductive PyError where
  | attributeError (attr : String)
  | indexError
  | keyError (key : String)
  | typeError (kwarg : String)
  deriving Repr, DecidableEq

/-- Embeds one element of the JSON array returned by the nominatim search
endpoint (see ResponseMock, geo.py 34-39): a dict whose relevant keys may
each be absent. Latitude and longitude arrive as strings. -/
structure GeoResult where
  place_id : Option Int
  osm_id : Option Int
  lat : Option String
  lon : Option String
  name : Option String
  display_name : Option String
  deriving Repr, DecidableEq

/-- Embeds the `Location` model (models.py 65-73) as created by
`Location.objects.create`: latitude and longitude hold the string values
taken from the JSON result (Django coerces them on save). -/
structure Location where
  place_id : Int
  latitude : String
  longitude : String
  name : String
  deriving Repr, DecidableEq

/-- State of the requests backend: how many `.get` calls have been issued so
far. The backend itself is an oracle mapping the index of a call to the
JSON array that call's response decodes to. -/
structure NetState where
  issued : Nat
  deriving Repr, DecidableEq

/-- Embeds one `self.requests.get(...)..json()` call (geo.py 62 / 66): it
consumes the next response from the oracle and advances the request
counter by exactly one. -/
def requestsGet (oracle : Nat → List GeoResult) (st : NetState) :
    List GeoResult × NetState :=
  (oracle st.issued, { issued := st.issued + 1 })

/-- The attribute names the `GeoAPI` class defines (geo.py 48-74): its class
attributes and its two methods. Python attribute lookup on a `GeoAPI`
instance succeeds exactly for these names. -/
def GeoAPI.attributes : List String :=
  ["api_url", "headers", "requests",
   "get_coordinates_from_postcode", "get_location_from_string"]

/-- Embeds the body of `GeoAPI.get_coordinates_from_postcode` (geo.py 61-63)
after the response is decoded: `json()[0]` raises IndexError on an empty
array, then `result["lat"]`, `result["lon"]` are read (KeyError when
absent, in that order). -/
def parseCoordinates (resp : List GeoResult) : Except PyError (String × String) :=
  match resp with
  | [] => .error .indexError
  | result :: _ =>
    match result.lat with
    | none => .error (.keyError "lat")
    | some lat =>
      match result.lon with
      | none => .error (.keyError "lon")
      | some lon => .ok (lat, lon)

/-- Embeds `GeoAPI.get_coordinates_from_postcode` (geo.py 61-63): one
`requests.get` call, then `parseCoordinates` on its response. -/
def GeoAPI.get_coordinates_from_postcode (postcode : String)
    (oracle : Nat → List GeoResult) (st : NetState) :
    Except PyError (String × String) × NetState :=
  let (resp, st2) := requestsGet oracle st
  (parseCoordinates resp, st2)

/-- Embeds the body of `GeoAPI.get_location_from_string` (geo.py 65-74) after
the response is decoded: `json()[0]` raises IndexError on an empty array;
the keyword arguments of `Location.objects.create` are evaluated in source
order (`place_id`, `osm_id`, `lat`, `lon`, `name`), raising KeyError at
the first absent key; when all keys are present the call itself raises
TypeError, because it passes `osm_id=...` and the `Location` model
(models.py 65-73) defines no `osm_id` field. -/
def parseLocationGeo (resp : List GeoResult) : Except PyError Location :=
  match resp with
  | [] => .error .indexError
  | result :: _ =>
    match result.place_id with
    | none => .error (.keyError "place_id")
    | some _ =>
      match result.osm_id with
      | none => .error (.keyError "osm_id")
      | some _ =>
        match result.lat with
        | none => .error (.keyError "lat")
        | some _ =>
          match result.lon with
          | none => .error (.keyError "lon")
          | some _ =>
            match result.name with
            | none => .error (.keyError "name")
            | some _ => .error (.typeError "osm_id")

/-- Embeds `GeoAPI.get_location_from_string` (geo.py 65-74): one
`requests.get` call, then `parseLocationGeo` on its response. -/
def GeoAPI.get_location_from_string (location_string : String)
    (oracle : Nat → List GeoResult) (st : NetState) :
    Except PyError Location × NetState :=
  let (resp, st2) := requestsGet oracle st
  (parseLocationGeo resp, st2)

/-- Embeds the body that `Location.get_location_from_string` (models.py
78-90) would run if `geo_api.get_geojson_for_query` existed and returned
the decoded response: `get_geojson[0]` raises IndexError on an empty
array; `name` falls back from `result["name"]` to
`result["display_name"]`; `Location.objects.create` reads `place_id`,
`lat`, `lon` (KeyError at the first absent key, in keyword order) and its
field names all exist, so it succeeds. -/
def parseLocationModels (resp : List GeoResult) : Except PyError Location :=
  match resp with
  | [] => .error .indexError
  | result :: _ =>
    let nameE : Except PyError String :=
      match result.name with
      | some n => .ok n
      | none =>
        match result.display_name with
        | some d => .ok d
        | none => .error (.keyError "display_name")
    match nameE with
    | .error e => .error e
    | .ok nm =>
      match result.place_id with
      | none => .error (.keyError "place_id")
      | some pid =>
        match result.lat with
        | none => .error (.keyError "lat")
        | some lat =>
          match result.lon with
          | none => .error (.keyError "lon")
          | some lon => .ok { place_id := pid, latitude := lat, longitude := lon, name := nm }

/-- Embeds `Location.get_location_from_string` (models.py 75-90). Its first
statement after constructing `GeoAPI()` evaluates
`geo_api.get_geojson_for_query`: attribute lookup on the instance, which
raises AttributeError — before any request is issued — unless the class
defines that name. The remaining body (modelled by `parseLocationModels`)
is reachable only if the lookup succeeds. -/
def Location.get_location_from_string (location_string : String)
    (oracle : Nat → List GeoResult) (st : NetState) :
    Except PyError Location × NetState :=
  if GeoAPI.attributes.contains "get_geojson_for_query" then
    let (resp, st2) := requestsGet oracle st
    (parseLocationModels resp, st2)
  else
    (.error (.attributeError "get_geojson_for_query"), st)

/-! ## Haversine distance (geo.py 9-31) -/

/-- Embeds Python's `math.radians` (degrees to radians). -/
noncomputable def radians (x : ℝ) : ℝ := x * (Real.pi / 180)

/-- Embeds Python's `math.atan2` on real arguments (the standard two-argument
arctangent; only the `x > 0` and `(0, 0)` regions are exercised here). -/
noncomputable def atan2 (y x : ℝ) : ℝ :=
  if 0 < x then Real.arctan (y / x)
  else if x < 0 ∧ 0 ≤ y then Real.arctan (y / x) + Real.pi
  else if x < 0 ∧ y < 0 then Real.arctan (y / x) - Real.pi
  else if x = 0 ∧ 0 < y then Real.pi / 2
  else if x = 0 ∧ y < 0 then -(Real.pi / 2)
  else 0

/-- Embeds `calculate_distance_between_coordinates` (geo.py 9-31) over the
reals: positions are `(lat, lon)` pairs in decimal degrees (the source's
`float(...)` coercions are the identity here). -/
noncomputable def calculate_distance_between_coordinates
    (position1 position2 : ℝ × ℝ) : ℝ :=
  let earth_radius_km : ℝ := 6371
  let latitude1 := position1.1
  let longitude1 := position1.2
  let latitude2 := position2.1
  let longitude2 := position2.2
  let distance_lat := radians (latitude2 - latitude1)
  let distance_long := radians (longitude2 - longitude1)
  let a := (Real.sin (distance_lat / 2)) ^ 2 +
    Real.cos (radians latitude1) * Real.cos (radians latitude2) *
      (Real.sin (distance_long / 2)) ^ 2
  let c := 2 * atan2 (Real.sqrt a) (Real.sqrt (1 - a))
  earth_radius_km * c

/-- The squared half-angle sine term is unchanged when the difference is
negated, so the haversine `a` term is symmetric in its two positions. -/
theorem sin_radians_neg_sq (x : ℝ) :
    (Real.sin (radians (-x) / 2)) ^ 2 = (Real.sin (radians x / 2)) ^ 2 := by
  have h : radians (-x) = -(radians x) := by
    simp [radians]
  rw [h, neg_div, Real.sin_neg]
  ring

/-! ## Theorems: geocoding and distance (C4, C5, C6, C10) -/

/-- C10: for every input string and every state of the requests backend,
`Location.get_location_from_string` fails with
`AttributeError: get_geojson_for_query` — the `GeoAPI` class defines no
such attribute — before issuing any request (the request counter is
unchanged) and before any location is created (the result carries no
location); hence no call to this entry point can succeed. -/
theorem C10_attribute_error (s : String) (oracle : Nat → List GeoResult)
    (st : NetState) :
    Location.get_location_from_string s oracle st =
      (.error (.attributeError "get_geojson_for_query"), st) := rfl

/-- C4 counterexample: resolving the empty-string query does not fail with a
handled lookup failure — no such exception class exists anywhere in the
code — but crashes with an unhandled AttributeError, raised by the call to
the undefined method `geo_api.get_geojson_for_query`. -/
theorem C4_counterexample :
    (Location.get_location_from_string "" (fun _ => []) ⟨0⟩).1 =
      .error (.attributeError "get_geojson_for_query") := rfl

/-- C4 amended: place-text resolution never yields a handled LookupFailure.
The models.py entry point `Location.get_location_from_string` raises
AttributeError for every input before issuing any query; the geo.py helper
`GeoAPI.get_location_from_string` raises IndexError when the response
array is empty and, whenever the first result lacks any of the expected
fields `place_id`, `osm_id`, `lat`, `lon`, `name`, a KeyError naming one
of those missing fields, for every query including the empty string. -/
theorem C4_amended (s : String) (oracle : Nat → List GeoResult)
    (st : NetState) (r : GeoResult) :
    (Location.get_location_from_string s oracle st).1 =
      .error (.attributeError "get_geojson_for_query") ∧
    (GeoAPI.get_location_from_string s (fun _ => []) st).1 =
      .error .indexError ∧
    (r.place_id = none ∨ r.osm_id = none ∨ r.lat = none ∨
        r.lon = none ∨ r.name = none →
      ∃ key,
        ((key = "place_id" ∧ r.place_id = none) ∨
         (key = "osm_id" ∧ r.osm_id = none) ∨
         (key = "lat" ∧ r.lat = none) ∨
         (key = "lon" ∧ r.lon = none) ∨
         (key = "name" ∧ r.name = none)) ∧
        (GeoAPI.get_location_from_string s (fun _ => [r]) st).1 =
          .error (.keyError key)) := by
  refine ⟨rfl, rfl, fun h => ?_⟩
  cases hp : r.place_id with
  | none =>
    exact ⟨"place_id", Or.inl ⟨rfl, rfl⟩,
      by simp [GeoAPI.get_location_from_string, requestsGet, parseLocationGeo, hp]⟩
  | some vp =>
    cases ho : r.osm_id with
    | none =>
      exact ⟨"osm_id", Or.inr (Or.inl ⟨rfl, rfl⟩),
        by simp [GeoAPI.get_location_from_string, requestsGet, parseLocationGeo, hp, ho]⟩
    | some vo =>
      cases hla : r.lat with
      | none =>
        exact ⟨"lat", Or.inr (Or.inr (Or.inl ⟨rfl, rfl⟩)),
          by simp [GeoAPI.get_location_from_string, requestsGet, parseLocationGeo,
            hp, ho, hla]⟩
      | some vla =>
        cases hlo : r.lon with
        | none =>
          exact ⟨"lon", Or.inr (Or.inr (Or.inr (Or.inl ⟨rfl, rfl⟩))),
            by simp [GeoAPI.get_location_from_string, requestsGet, parseLocationGeo,
              hp, ho, hla, hlo]⟩
        | some vlo =>
          cases hn : r.name with
          | none =>
            exact ⟨"name", Or.inr (Or.inr (Or.inr (Or.inr ⟨rfl, rfl⟩))),
              by simp [GeoAPI.get_location_from_string, requestsGet, parseLocationGeo,
                hp, ho, hla, hlo, hn]⟩
          | some vn =>
            rcases h with h | h | h | h | h <;> simp_all

/-- Witness for C4_amended at the empty-string query, the empty response and
a result missing every expected field. -/
theorem C4_amended_witness :
    (Location.get_location_from_string "" (fun _ => []) ⟨0⟩).1 =
      .error (.attributeError "get_geojson_for_query") ∧
    (GeoAPI.get_location_from_string "" (fun _ => []) ⟨0⟩).1 =
      .error .indexError ∧
    (∃ key,
      ((key = "place_id" ∧ (⟨none, none, none, none, none, none⟩ : GeoResult).place_id = none) ∨
       (key = "osm_id" ∧ (⟨none, none, none, none, none, none⟩ : GeoResult).osm_id = none) ∨
       (key = "lat" ∧ (⟨none, none, none, none, none, none⟩ : GeoResult).lat = none) ∨
       (key = "lon" ∧ (⟨none, none, none, none, none, none⟩ : GeoResult).lon = none) ∨
       (key = "name" ∧ (⟨none, none, none, none, none, none⟩ : GeoResult).name = none)) ∧
      (GeoAPI.get_location_from_string ""
          (fun _ => [⟨none, none, none, none, none, none⟩]) ⟨0⟩).1 =
        .error (.keyError key)) :=
  have h := C4_amended "" (fun _ => []) ⟨0⟩ ⟨none, none, none, none, none, none⟩
  ⟨h.1, h.2.1, h.2.2 (Or.inl rfl)⟩

/-- C5: every call to `GeoAPI.get_location_from_string` issues exactly one
request to the backend (no retry); two consecutive calls issue exactly two
independent requests; and the outcome of a call depends only on the
response to the request it issues itself, so no result is cached across
calls. -/
theorem C5_fresh_request_per_call (s1 s2 : String)
    (oracle oracle2 : Nat → List GeoResult) (st : NetState) :
    (GeoAPI.get_location_from_string s1 oracle st).2.issued = st.issued + 1 ∧
    (GeoAPI.get_location_from_string s2 oracle
        (GeoAPI.get_location_from_string s1 oracle st).2).2.issued =
      st.issued + 2 ∧
    (oracle2 st.issued = oracle st.issued →
      GeoAPI.get_location_from_string s1 oracle2 st =
        GeoAPI.get_location_from_string s1 oracle st) := by
  refine ⟨rfl, rfl, fun h => ?_⟩
  simp [GeoAPI.get_location_from_string, requestsGet, h]

/-- Witness for C5_fresh_request_per_call at a concrete query and backend. -/
theorem C5_witness :
    (GeoAPI.get_location_from_string "Mannheim" (fun _ => []) ⟨0⟩).2.issued = 1 ∧
    (GeoAPI.get_location_from_string "Mannheim" (fun _ => [])
        (GeoAPI.get_location_from_string "Mannheim" (fun _ => []) ⟨0⟩).2).2.issued = 2 ∧
    GeoAPI.get_location_from_string "Mannheim"
        (fun n => if n = 0 then [] else [⟨some 1, some 2, some "48.1", some "9.1", some "x", none⟩])
        ⟨0⟩ =
      GeoAPI.get_location_from_string "Mannheim" (fun _ => []) ⟨0⟩ :=
  have h := C5_fresh_request_per_call "Mannheim" "Mannheim" (fun _ => [])
    (fun n => if n = 0 then [] else [⟨some 1, some 2, some "48.1", some "9.1", some "x", none⟩])
    ⟨0⟩
  ⟨h.1, h.2.1, h.2.2 rfl⟩

/-- C6: the haversine distance is symmetric in its two coordinate pairs, and
the distance from any point to itself is below the 1e-6 tolerance (it is
exactly 0 in the real-valued semantics). -/
theorem C6_distance_symmetric (A B : ℝ × ℝ) :
    calculate_distance_between_coordinates A B =
      calculate_distance_between_coordinates B A ∧
    calculate_distance_between_coordinates A A < 1e-6 := by
  constructor
  · unfold calculate_distance_between_coordinates
    dsimp only
    have h1 : A.1 - B.1 = -(B.1 - A.1) := by ring
    have h2 : A.2 - B.2 = -(B.2 - A.2) := by ring
    rw [h1, h2, sin_radians_neg_sq, sin_radians_neg_sq,
      mul_comm (Real.cos (radians B.1)) (Real.cos (radians A.1))]
  · have h0 : calculate_distance_between_coordinates A A = 0 := by
      unfold calculate_distance_between_coordinates
      simp [radians, atan2, Real.sqrt_one]
    rw [h0]
    norm_num

/-! ## Moderation workflow (models.py Report / ModerationAction; the view
code applying moderation decisions is not under src, so `file_report` and
`apply_action` are modelled from the spec) -/

/-- Embeds `Report.ACTION_TAKEN` (models.py 246). -/
def Report.ACTION_TAKEN : String := "action taken"

/-- Embeds `Report.NO_ACTION_TAKEN` (models.py 247). -/
def Report.NO_ACTION_TAKEN : String := "no action taken"

/-- Embeds `Report.WAITING` (models.py 248). -/
def Report.WAITING : String := "waiting"

/-- Embeds `ModerationAction.BAN` (geo: models.py 292). -/
def ModerationAction.BAN : String := "user_banned"

/-- Embeds `ModerationAction.NONE` (models.py 296), the "none" action kind. -/
def ModerationAction.NONE : String := "no_action_taken"

/-- Embeds the `ModerationAction` model (models.py 291-314): action kind,
public comment and moderator-only private comment. -/
structure ModerationAction where
  action : String
  public_comment : String
  private_comment : String
  deriving Repr, DecidableEq

/-- Embeds a `Report` (models.py 242-272) together with its reverse relation
`get_moderation_actions` (models.py 271-272), kept as the append-only list
of actions in filing order. -/
structure Report where
  status : String
  actions : List ModerationAction
  deriving Repr, DecidableEq

/-- Modelled from the spec: the view that files a report is not under src.
Spec 4.3: `file_report` creates a Report in "waiting" status; its action
log starts empty. -/
def file_report : Report :=
  { status := Report.WAITING, actions := [] }

/-- Modelled from the spec: the moderation view that records a decision is
not under src. Spec 4.3: `apply_action` appends a ModerationAction to the
report's log; if the action kind is "none" (`no_action_taken`) it sets the
report status to no-action-taken, otherwise to action-taken. -/
def apply_action (r : Report) (kind pub priv : String) : Report :=
  { status :=
      if kind = ModerationAction.NONE then Report.NO_ACTION_TAKEN
      else Report.ACTION_TAKEN,
    actions := r.actions ++ [⟨kind, pub, priv⟩] }

/-- A sequence of moderation decisions applied in order to a report. -/
def run_actions (r : Report) (ops : List (String × String × String)) : Report :=
  ops.foldl (fun r op => apply_action r op.1 op.2.1 op.2.2) r

/-- After any run of decisions the status is determined by the last one
applied (or is the starting status when none was). -/
theorem run_actions_status (ops : List (String × String × String)) (r : Report) :
    (run_actions r ops).status =
      match ops.getLast? with
      | none => r.status
      | some op =>
        if op.1 = ModerationAction.NONE then Report.NO_ACTION_TAKEN
        else Report.ACTION_TAKEN := by
  induction ops generalizing r with
  | nil => rfl
  | cons op rest ih =>
    cases rest with
    | nil => simp [run_actions, apply_action]
    | cons op2 rest2 =>
      have step : run_actions r (op :: op2 :: rest2) =
          run_actions (apply_action r op.1 op.2.1 op.2.2) (op2 :: rest2) := rfl
      rw [step, ih, List.getLast?_cons_cons]
      cases hlast : (op2 :: rest2).getLast? with
      | none => exact absurd (List.getLast?_eq_none_iff.mp hlast) (by simp)
      | some x => rfl

/-! ## Theorems: moderation workflow (C7, C8) -/

/-- C7 counterexample: a report that received a `user_banned` action is in
the terminal action-taken status, yet a subsequent "none" action moves it
to no-action-taken — a transition out of a terminal state, which the claim
says never happens (it allows only waiting → action-taken and
waiting → no-action-taken). -/
theorem C7_counterexample :
    (apply_action file_report ModerationAction.BAN "" "").status =
      Report.ACTION_TAKEN ∧
    Report.ACTION_TAKEN ≠ Report.WAITING ∧
    (apply_action (apply_action file_report ModerationAction.BAN "" "")
        ModerationAction.NONE "" "").status = Report.NO_ACTION_TAKEN ∧
    Report.NO_ACTION_TAKEN ≠ Report.ACTION_TAKEN := by
  refine ⟨?_, by decide, ?_, by decide⟩
  · simp [apply_action, ModerationAction.BAN, ModerationAction.NONE]
  · simp [apply_action, ModerationAction.NONE]

/-- C7 amended: a report's status is waiting from creation exactly until the
first moderation action; every applied action sets a terminal status
(no-action-taken for the "none" kind, action-taken otherwise), so after
any non-empty run the status equals the classification of the most recent
action — it may switch between the two terminal states but never returns
to waiting, and waiting is distinct from both terminal states. -/
theorem C7_amended (ops : List (String × String × String)) :
    ((run_actions file_report ops).status =
      match ops.getLast? with
      | none => Report.WAITING
      | some op =>
        if op.1 = ModerationAction.NONE then Report.NO_ACTION_TAKEN
        else Report.ACTION_TAKEN) ∧
    Report.WAITING ≠ Report.ACTION_TAKEN ∧
    Report.WAITING ≠ Report.NO_ACTION_TAKEN := by
  refine ⟨?_, by decide, by decide⟩
  rw [run_actions_status]
  rfl

/-- C8: `apply_action` appends the new action to the end of the report's log,
leaving all existing entries unchanged and in filing order, and the
resulting status is no-action-taken exactly when the action kind is the
"none" kind `no_action_taken`, action-taken for every other kind. -/
theorem C8_apply_action (r : Report) (kind pub priv : String) :
    ((apply_action r kind pub priv).actions = r.actions ++ [⟨kind, pub, priv⟩]) ∧
    (kind = ModerationAction.NONE →
      (apply_action r kind pub priv).status = Report.NO_ACTION_TAKEN) ∧
    (kind ≠ ModerationAction.NONE →
      (apply_action r kind pub priv).status = Report.ACTION_TAKEN) := by
  refine ⟨rfl, fun h => ?_, fun h => ?_⟩
  · simp [apply_action, h]
  · simp [apply_action, h]

/-- Witness for C8_apply_action: the spec's own scenario — a fresh report
after `no_action_taken` is no-action-taken; after a subsequent
`user_banned` it is action-taken and the log holds both entries in filing
order. -/
theorem C8_witness :
    ((apply_action file_report ModerationAction.NONE "" "").status =
      Report.NO_ACTION_TAKEN) ∧
    ((apply_action (apply_action file_report ModerationAction.NONE "" "")
        ModerationAction.BAN "" "").status = Report.ACTION_TAKEN) ∧
    ((apply_action (apply_action file_report ModerationAction.NONE "" "")
        ModerationAction.BAN "" "").actions =
      [⟨ModerationAction.NONE, "", ""⟩, ⟨ModerationAction.BAN, "", ""⟩]) :=
  have h1 := C8_apply_action file_report ModerationAction.NONE "" ""
  have h2 := C8_apply_action (apply_action file_report ModerationAction.NONE "" "")
    ModerationAction.BAN "" ""
  ⟨h1.2.1 rfl, h2.2.2 (by decide), by rw [h2.1, h1.1]; rfl⟩

/-! ## Membership (models.py Member, add_member) -/

/-- Embeds `Member.MEMBER` (models.py 341), the default trust level. -/
def Member.MEMBER : String := "Mitglied"

/-- Embeds the `Member` model (models.py 326-361): the wrapped user identity
(by id) and the trust level. -/
structure Member where
  user : Nat
  trust_level : String
  deriving Repr, DecidableEq

/-- Embeds `Member.objects.create(user=instance)` (models.py 361): every
unspecified field takes its declared default, so the trust level is
`MEMBER`. -/
def Member.create (u : Nat) : Member :=
  { user := u, trust_level := Member.MEMBER }

/-- Embeds the `add_member` receiver (models.py 358-361), which runs on every
save of a `User`: if the number of Member rows for that user differs from
one, a new Member row for the user is created (appended to the table). -/
def add_member (u : Nat) (members : List Member) : List Member :=
  if (members.filter (fun m => m.user == u)).length ≠ 1 then
    members ++ [Member.create u]
  else
    members

/-! ## Theorems: membership (C9) -/

/-- C9: when a user with no existing Member row is saved (in particular upon
account creation), afterwards exactly one Member row wraps that user and
it carries the default trust level member ("Mitglied"); and any further
save of a user that already has exactly one Member row changes nothing, so
repeated saves never create additional Member rows. -/
theorem C9_one_member_per_user (u : Nat) (members : List Member)
    (h : (members.filter (fun m => m.user == u)).length = 0) :
    ((add_member u members).filter (fun m => m.user == u) = [Member.create u]) ∧
    (Member.create u).trust_level = Member.MEMBER ∧
    (∀ ms : List Member, (ms.filter (fun m => m.user == u)).length = 1 →
      add_member u ms = ms) := by
  refine ⟨?_, rfl, fun ms hms => ?_⟩
  · have hnil : members.filter (fun m => m.user == u) = [] :=
      List.length_eq_zero.mp h
    simp [add_member, h, List.filter_append, hnil, Member.create]
  · simp [add_member, hms]

/-- Witness for C9_one_member_per_user: saving a fresh user into an empty
table (its creation) yields exactly one Member row with the default trust
level, and saving again with that row present changes nothing. -/
theorem C9_witness :
    ((add_member 7 []).filter (fun m => m.user == 7) = [Member.create 7]) ∧
    (Member.create 7).trust_level = Member.MEMBER ∧
    add_member 7 [Member.create 7] = [Member.create 7] :=
  have h := C9_one_member_per_user 7 [] rfl
  ⟨h.1, h.2.1, h.2.2 [Member.create 7] (by decide)⟩
